import Mathlib

/-!
Shallow embedding of the Reddit feed unit (internal/feed/reddit.go) of the glance
repository. External collaborators are modelled as parameters: the HTTP transport
together with JSON decoding is a value of type `Except String α` supplied by the
caller (an `Except.error` is a transport or decode failure surfaced verbatim), the
current clock reading is an integer parameter `now`, and the Go standard library
helper html.UnescapeString is an arbitrary function parameter `unescape`. Absolute
timestamps (Go time.Time) are modelled as `Option Int`: `none` is the zero value
(IsZero), `some t` an instant measured in seconds. The fractional part of the
`created` field is immaterial to every claim and is modelled at integer precision.
Request headers are set on the outbound request only and never influence the
decoded response value in this model, so the header lines of the source
(Authorization / User-Agent selection) have no observable counterpart here.
-/

/-- One element of the crosspost parent list inside the listing JSON
(field crosspost_parent_list of the entry data). -/
structure RedditCrosspostParent where
  Id : String
  Subreddit : String
  Permalink : String
deriving DecidableEq, Repr

/-- The per-entry payload of the listing JSON (the inner data object of one child
of subredditResponseJson). The Go struct nests this anonymously; it is named here
so the normaliser can be stated on it. -/
structure RedditPostData where
  Id : String
  Title : String
  Upvotes : Int
  Url : String
  Time : Int
  CommentsCount : Int
  Domain : String
  Permalink : String
  Stickied : Bool
  Pinned : Bool
  IsSelf : Bool
  Thumbnail : String
  Flair : String
  ParentList : List RedditCrosspostParent
deriving DecidableEq, Repr

/-- The decoded listing response: the Go struct subredditResponseJson flattened to
its list of children entry payloads (the two anonymous wrapper objects data and
children carry no other information). -/
structure subredditResponseJson where
  children : List RedditPostData
deriving DecidableEq, Repr

/-- The decoded token endpoint response (redditAccessTokenResponseJson). -/
structure redditAccessTokenResponseJson where
  AccessToken : String
  ExpiresIn : Int
  Scope : String
  TokenType : String
deriving DecidableEq, Repr

/-- The OAuth credential state (RedditOauth). ExpiresAt models a Go time.Time:
none is the zero value, some t an absolute instant in seconds. -/
structure RedditOauth where
  ClientId : String
  ClientSecret : String
  Username : String
  Password : String
  UserAgent : String
  AccessToken : String
  ExpiresAt : Option Int
deriving DecidableEq, Repr

/-- ShouldAuthenticate: all four identity fields are non-empty. -/
def RedditOauth.ShouldAuthenticate (r : RedditOauth) : Bool :=
  r.ClientId != "" && r.ClientSecret != "" && r.Username != "" && r.Password != ""

/-- ShouldReauthenticate: false on the zero expiry, otherwise the negation of
ExpiresAt.After(now), that is, true iff the expiry is at or before now. -/
def RedditOauth.ShouldReauthenticate (r : RedditOauth) (now : Int) : Bool :=
  match r.ExpiresAt with
  | none => false
  | some e => !(now < e)

/-- Consume a pattern from the front of a character list: some rest when the
pattern is a prefix and rest is what follows it, none otherwise. -/
def dropPattern : List Char → List Char → Option (List Char)
  | [], s => some s
  | _ :: _, [] => none
  | p :: ps, c :: cs => if p = c then dropPattern ps cs else none

/-- Replace every non-overlapping occurrence of a pattern, left to right, the way
Go strings.ReplaceAll does for a non-empty pattern. The fuel argument only bounds
the recursion; every step consumes at least one character of the subject, so fuel
equal to the subject length (as supplied by replaceAll below) is never exhausted. -/
def replaceAllChars (pattern repl : List Char) : Nat → List Char → List Char
  | _, [] => []
  | 0, s => s
  | fuel + 1, c :: cs =>
    match dropPattern pattern (c :: cs) with
    | some rest => repl ++ replaceAllChars pattern repl fuel rest
    | none => c :: replaceAllChars pattern repl fuel cs

/-- Model of Go strings.ReplaceAll, restricted to the non-empty patterns this unit
uses (every call site passes a fixed non-empty placeholder literal). -/
def replaceAll (s pattern repl : String) : String :=
  match pattern.data with
  | [] => s
  | _ :: _ => String.mk (replaceAllChars pattern.data repl.data s.data.length s.data)

/-- Model of Go strings.TrimLeft(s, slash): drop every leading slash character. -/
def trimLeftSlash (s : String) : String :=
  String.mk (s.data.dropWhile (fun c => c == '/'))

/-- templateRedditCommentsURL: substitute the three comments-URL placeholders,
the post path being the permalink with leading slashes stripped. -/
def templateRedditCommentsURL (template subreddit postId postPath : String) : String :=
  let t1 := replaceAll template "{SUBREDDIT}" subreddit
  let t2 := replaceAll t1 "{POST-ID}" postId
  let t3 := replaceAll t2 "{POST-PATH}" (trimLeftSlash postPath)
  t3

/-- The failure modes of TryAuthenticate: a transport or decode failure surfaced
verbatim, or one of the two dedicated semantic failures. -/
inductive RedditAuthError where
  | transport (message : String)
  | accessTokenUndefined
  | expiresInUndefined
deriving DecidableEq, Repr

/-- The error text each failure mode carries in the source. -/
def RedditAuthError.message : RedditAuthError → String
  | .transport m => m
  | .accessTokenUndefined => "reddit access token undefined"
  | .expiresInUndefined => "reddit expires in undefined"

/-- TryAuthenticate: when the credential is fully configured, run the password
grant exchange (its transport and decode outcome is the response parameter) and
mutate the credential only on full success; when any identity field is empty, do
nothing and report no error. Returns the resulting credential state paired with
the reported error, none meaning the Go nil error. -/
def TryAuthenticate (oauth : RedditOauth) (now : Int)
    (response : Except String redditAccessTokenResponseJson) :
    RedditOauth × Option RedditAuthError :=
  if oauth.ClientId != "" && oauth.ClientSecret != "" && oauth.Username != "" && oauth.Password != "" then
    match response with
    | .error e => (oauth, some (.transport e))
    | .ok r =>
      if r.AccessToken == "" then (oauth, some .accessTokenUndefined)
      else if r.ExpiresIn == 0 then (oauth, some .expiresInUndefined)
      else ({ oauth with AccessToken := r.AccessToken, ExpiresAt := some (now + r.ExpiresIn) }, none)
  else (oauth, none)

/-- Modelled from the spec: the ForumPost (CanonicalPost) record consumed by the
aggregation pipeline is declared outside this unit and its declaring file is not
part of the studied source; per the spec it carries a title, a discussion URL, an
optional target URL, a target domain label, an optional thumbnail URL, an ordered
tag list, a comment count, a score, a posted-at timestamp and a crosspost flag.
The two optional URL fields are Option String, none meaning unset. -/
structure ForumPost where
  Title : String
  DiscussionUrl : String
  TargetUrl : Option String
  TargetUrlDomain : String
  ThumbnailUrl : Option String
  Tags : List String
  CommentCount : Int
  Score : Int
  TimePosted : Int
  IsCrosspost : Bool
deriving DecidableEq, Repr

/-- The output sequence type of the pipeline. -/
abbrev ForumPosts := List ForumPost

/-- The loop body of FetchSubredditPosts (lines building forumPost from one
non-filtered entry): base mapping, thumbnail rule, self-post rule, flair rule,
then the crosspost override pass using the first parent record. -/
def normalizeRedditPost (subreddit commentsUrlTemplate : String) (showFlairs : Bool)
    (unescape : String → String) (post : RedditPostData) : ForumPost :=
  let commentsUrl :=
    if commentsUrlTemplate = "" then "https://www.reddit.com" ++ post.Permalink
    else templateRedditCommentsURL commentsUrlTemplate subreddit post.Id post.Permalink
  let forumPost : ForumPost :=
    { Title := unescape post.Title
      DiscussionUrl := commentsUrl
      TargetUrl := none
      TargetUrlDomain := post.Domain
      ThumbnailUrl := none
      Tags := []
      CommentCount := post.CommentsCount
      Score := post.Upvotes
      TimePosted := post.Time
      IsCrosspost := false }
  let forumPost :=
    if post.Thumbnail ≠ "" ∧ post.Thumbnail ≠ "self" ∧ post.Thumbnail ≠ "default" ∧ post.Thumbnail ≠ "nsfw"
    then { forumPost with ThumbnailUrl := some (unescape post.Thumbnail) }
    else forumPost
  let forumPost :=
    if !post.IsSelf then { forumPost with TargetUrl := some post.Url } else forumPost
  let forumPost :=
    if showFlairs ∧ post.Flair ≠ "" then { forumPost with Tags := forumPost.Tags ++ [post.Flair] }
    else forumPost
  match post.ParentList with
  | [] => forumPost
  | parent :: _ =>
    { forumPost with
      IsCrosspost := true
      TargetUrlDomain := "r/" ++ parent.Subreddit
      TargetUrl := some
        (if commentsUrlTemplate = "" then "https://www.reddit.com" ++ parent.Permalink
         else templateRedditCommentsURL commentsUrlTemplate parent.Subreddit parent.Id parent.Permalink) }

/-- Percent-encoding table of Go net/url QueryEscape for one byte value: bytes
that stay verbatim are ASCII letters, digits and the four marks dash, underscore,
dot, tilde; a space becomes a plus; everything else becomes a percent escape with
two uppercase hexadecimal digits. -/
def isUnreservedByte (b : Nat) : Bool :=
  (65 ≤ b && b ≤ 90) || (97 ≤ b && b ≤ 122) || (48 ≤ b && b ≤ 57) ||
  b == 45 || b == 95 || b == 46 || b == 126

/-- One uppercase hexadecimal digit. -/
def hexDigitUpper (n : Nat) : Char :=
  if n < 10 then Char.ofNat (48 + n) else Char.ofNat (55 + n)

/-- Escape one byte per the QueryEscape table. -/
def escapeQueryByte (b : Nat) : List Char :=
  if isUnreservedByte b then [Char.ofNat b]
  else if b == 32 then ['+']
  else ['%', hexDigitUpper (b / 16), hexDigitUpper (b % 16)]

/-- The UTF-8 byte sequence of one character, as Go sees a string. -/
def utf8Bytes (c : Char) : List Nat :=
  let n := c.toNat
  if n < 128 then [n]
  else if n < 2048 then [192 + n / 64, 128 + n % 64]
  else if n < 65536 then [224 + n / 4096, 128 + (n / 64) % 64, 128 + n % 64]
  else [240 + n / 262144, 128 + (n / 4096) % 64, 128 + (n / 64) % 64, 128 + n % 64]

/-- Model of Go net/url QueryEscape: escape the UTF-8 bytes of the string. -/
def queryEscape (s : String) : String :=
  String.mk ((s.data.flatMap utf8Bytes).flatMap escapeQueryByte)

/-- Byte-order comparison of two strings as Go sort.Strings orders keys
(lexicographic on code points, which agrees with byte order on the ASCII keys
this unit produces). -/
def charListLt : List Char → List Char → Bool
  | _, [] => false
  | [], _ :: _ => true
  | a :: as, b :: bs => decide (a.toNat < b.toNat) || (a == b && charListLt as bs)

/-- The query multimap of Go net/url Values, as an association list of a key and
its value list; the map iteration order is immaterial because Encode sorts. -/
def urlValuesSet : List (String × List String) → String → String → List (String × List String)
  | [], k, v => [(k, [v])]
  | (k2, vs) :: rest, k, v =>
    if k2 = k then (k, [v]) :: rest else (k2, vs) :: urlValuesSet rest k v

/-- Lookup in the query multimap. -/
def urlValuesGet : List (String × List String) → String → Option (List String)
  | [], _ => none
  | (k2, vs) :: rest, k => if k2 = k then some vs else urlValuesGet rest k

/-- Insertion step of the key sort used by Encode. -/
def insertByKey (p : String × List String) :
    List (String × List String) → List (String × List String)
  | [] => [p]
  | q :: rest => if charListLt p.1.data q.1.data then p :: q :: rest else q :: insertByKey p rest

/-- Sort the query entries by key as Go Values.Encode does. -/
def sortByKey (vs : List (String × List String)) : List (String × List String) :=
  vs.foldr insertByKey []

/-- Join pieces with ampersands. -/
def joinAmp : List String → String
  | [] => ""
  | [x] => x
  | x :: y :: rest => x ++ "&" ++ joinAmp (y :: rest)

/-- Model of Go net/url Values.Encode: keys in sorted order, each key and value
query-escaped, pairs joined with ampersands. -/
def urlValuesEncode (vs : List (String × List String)) : String :=
  joinAmp ((sortByKey vs).flatMap (fun kv => kv.2.map (fun v => queryEscape kv.1 ++ "=" ++ queryEscape v)))

/-- The query construction of FetchSubredditPosts: in search mode set q to the
search term, a space, the word subreddit, a colon and the subreddit name, and set
sort; whenever sort is top, set the period parameter t. -/
def buildRedditQuery (subreddit sort topPeriod search : String) : List (String × List String) :=
  let query : List (String × List String) := []
  let query :=
    if search ≠ "" then
      urlValuesSet (urlValuesSet query "q" (search ++ " subreddit:" ++ subreddit)) "sort" sort
    else query
  if sort = "top" then urlValuesSet query "t" topPeriod else query

/-- The request URL construction of FetchSubredditPosts: the search endpoint or
the subreddit listing endpoint with the encoded query appended, then the optional
request-URL template substitution. -/
def buildRedditRequestUrl (baseRequestUrl subreddit sort topPeriod search requestUrlTemplate : String) : String :=
  let query := buildRedditQuery subreddit sort topPeriod search
  let requestUrl :=
    if search ≠ "" then baseRequestUrl ++ "/search.json?" ++ urlValuesEncode query
    else baseRequestUrl ++ "/r/" ++ subreddit ++ "/" ++ sort ++ ".json?" ++ urlValuesEncode query
  if requestUrlTemplate ≠ "" then replaceAll requestUrlTemplate "{REQUEST-URL}" requestUrl
  else requestUrl

/-- The failure modes of FetchSubredditPosts: an auth failure from the token
refresh, a transport or decode failure of the listing request surfaced verbatim,
or the dedicated empty-result failure. -/
inductive RedditFetchError where
  | auth (e : RedditAuthError)
  | transport (message : String)
  | noPostsFound
deriving DecidableEq, Repr

/-- The error text each fetch failure carries in the source. -/
def RedditFetchError.message : RedditFetchError → String
  | .auth e => e.message
  | .transport m => m
  | .noPostsFound => "no posts found"

/-- The auth step of FetchSubredditPosts: when a credential is present with a
non-empty access token and reauthentication is due, run TryAuthenticate and
report its error, otherwise report none. -/
def redditFetchAuthError (oauth : Option RedditOauth) (now : Int)
    (tokenResponse : Except String redditAccessTokenResponseJson) : Option RedditAuthError :=
  match oauth with
  | none => none
  | some o =>
    if o.AccessToken != "" && o.ShouldReauthenticate now then
      (TryAuthenticate o now tokenResponse).2
    else none

/-- FetchSubredditPosts: pick the base host from the credential state, refresh the
token when due and fail on a refresh error, build the request URL, then decode the
listing (its transport and decode outcome is the listingResponse parameter), fail
with the dedicated empty-result error on zero entries, and otherwise normalise the
non-stickied, non-pinned entries in listing order. -/
def FetchSubredditPosts (subreddit sort topPeriod search commentsUrlTemplate requestUrlTemplate : String)
    (showFlairs : Bool) (oauth : Option RedditOauth) (now : Int)
    (tokenResponse : Except String redditAccessTokenResponseJson)
    (listingResponse : Except String subredditResponseJson)
    (unescape : String → String) : Except RedditFetchError ForumPosts :=
  let useOauth := match oauth with | some o => o.AccessToken != "" | none => false
  let baseRequestUrl := if useOauth then "https://oauth.reddit.com" else "https://reddit.com"
  match redditFetchAuthError oauth now tokenResponse with
  | some e => .error (.auth e)
  | none =>
    let _requestUrl := buildRedditRequestUrl baseRequestUrl subreddit sort topPeriod search requestUrlTemplate
    match listingResponse with
    | .error e => .error (.transport e)
    | .ok responseJson =>
      if responseJson.children.length = 0 then .error .noPostsFound
      else
        .ok ((responseJson.children.filter (fun p => !(p.Stickied || p.Pinned))).map
          (normalizeRedditPost subreddit commentsUrlTemplate showFlairs unescape))

/-- Claim C8: ShouldReauthenticate returns false when the expiry is the zero
value, true when the expiry is at or before the current time, and false when the
expiry is strictly after the current time; no early-refresh margin is applied. -/
theorem shouldReauthenticate_spec (r : RedditOauth) (now : Int) :
    (r.ExpiresAt = none → r.ShouldReauthenticate now = false) ∧
    (∀ e, r.ExpiresAt = some e →
      ((e ≤ now → r.ShouldReauthenticate now = true) ∧
       (now < e → r.ShouldReauthenticate now = false))) := by
  refine ⟨fun h => ?_, fun e he => ⟨fun hle => ?_, fun hlt => ?_⟩⟩ <;>
    simp [RedditOauth.ShouldReauthenticate, *]

/-- Witness for C8 at a concrete credential: expiry 5 is at or before now 7, so
reauthentication is due. -/
theorem shouldReauthenticate_spec_witness :
    ({ ClientId := "", ClientSecret := "", Username := "", Password := "", UserAgent := "",
       AccessToken := "", ExpiresAt := some 5 } : RedditOauth).ShouldReauthenticate 7 = true :=
  ((shouldReauthenticate_spec
      { ClientId := "", ClientSecret := "", Username := "", Password := "", UserAgent := "",
        AccessToken := "", ExpiresAt := some 5 } 7).2 5 rfl).1 (by decide)

/-- Claim C10: when any of the four identity fields is empty, TryAuthenticate
reports no error and leaves every field of the credential unchanged, for every
possible outcome of the token exchange (so no exchange outcome is even consulted). -/
theorem tryAuthenticate_unconfigured_noop (oauth : RedditOauth) (now : Int)
    (response : Except String redditAccessTokenResponseJson)
    (h : oauth.ClientId = "" ∨ oauth.ClientSecret = "" ∨ oauth.Username = "" ∨ oauth.Password = "") :
    TryAuthenticate oauth now response = (oauth, none) := by
  have hc : (oauth.ClientId != "" && oauth.ClientSecret != "" && oauth.Username != "" && oauth.Password != "") = false := by
    rcases h with h | h | h | h <;> simp [h]
  simp [TryAuthenticate, hc]

/-- Witness for C10: a credential missing its password is returned unchanged with
no error even when the exchange outcome would have been a success. -/
theorem tryAuthenticate_unconfigured_noop_witness :
    TryAuthenticate
      { ClientId := "i", ClientSecret := "s", Username := "u", Password := "", UserAgent := "",
        AccessToken := "", ExpiresAt := none } 50
      (.ok { AccessToken := "tok", ExpiresIn := 3600, Scope := "", TokenType := "" }) =
    ({ ClientId := "i", ClientSecret := "s", Username := "u", Password := "", UserAgent := "",
       AccessToken := "", ExpiresAt := none }, none) :=
  tryAuthenticate_unconfigured_noop _ 50
    (.ok { AccessToken := "tok", ExpiresIn := 3600, Scope := "", TokenType := "" })
    (Or.inr (Or.inr (Or.inr rfl)))

/-- Claim C5: on a fully configured credential, a transport or decode failure of
the exchange is propagated with the credential unchanged; a successful exchange
with an empty access token, or with a zero expires-in, fails with the respective
dedicated error (the two are distinct) with the credential unchanged; and only on
full success is the credential mutated, the token to the response token and the
expiry to now plus expires-in seconds. -/
theorem tryAuthenticate_exchange_contract (oauth : RedditOauth) (now : Int)
    (h : oauth.ShouldAuthenticate = true) :
    (∀ e, TryAuthenticate oauth now (.error e) = (oauth, some (.transport e))) ∧
    (∀ r, r.AccessToken = "" →
      TryAuthenticate oauth now (.ok r) = (oauth, some .accessTokenUndefined)) ∧
    (∀ r, r.AccessToken ≠ "" → r.ExpiresIn = 0 →
      TryAuthenticate oauth now (.ok r) = (oauth, some .expiresInUndefined)) ∧
    (∀ r, r.AccessToken ≠ "" → r.ExpiresIn ≠ 0 →
      TryAuthenticate oauth now (.ok r) =
        ({ oauth with AccessToken := r.AccessToken, ExpiresAt := some (now + r.ExpiresIn) }, none)) ∧
    RedditAuthError.accessTokenUndefined ≠ RedditAuthError.expiresInUndefined := by
  rw [RedditOauth.ShouldAuthenticate] at h
  refine ⟨fun e => ?_, fun r hr => ?_, fun r hr hz => ?_, fun r hr hz => ?_, by simp⟩ <;>
    simp [TryAuthenticate, h, *]

/-- Witness for C5: a fully configured credential together with a full-success
exchange outcome yields the mutated credential and no error. -/
theorem tryAuthenticate_exchange_contract_witness :
    TryAuthenticate
      { ClientId := "i", ClientSecret := "s", Username := "u", Password := "p", UserAgent := "",
        AccessToken := "", ExpiresAt := none } 100
      (.ok { AccessToken := "tok", ExpiresIn := 3600, Scope := "", TokenType := "" }) =
    ({ ClientId := "i", ClientSecret := "s", Username := "u", Password := "p", UserAgent := "",
       AccessToken := "tok", ExpiresAt := some 3700 }, none) :=
  (tryAuthenticate_exchange_contract
      { ClientId := "i", ClientSecret := "s", Username := "u", Password := "p", UserAgent := "",
        AccessToken := "", ExpiresAt := none } 100 (by decide)).2.2.2.1
    { AccessToken := "tok", ExpiresIn := 3600, Scope := "", TokenType := "" }
    (by decide) (by decide)

/-- Counterexample to claim C9 as stated: a successful exchange whose expires-in
is negative, hence not strictly positive, still mutates the credential, so
TryAuthenticate neither left both derived fields unchanged nor mutated with a
strictly positive expires-in. -/
theorem tryAuthenticate_strict_positive_counterexample :
    ¬ (((TryAuthenticate
          { ClientId := "i", ClientSecret := "s", Username := "u", Password := "p", UserAgent := "",
            AccessToken := "", ExpiresAt := none } 100
          (.ok { AccessToken := "tok", ExpiresIn := -1, Scope := "", TokenType := "" })).1.AccessToken = "" ∧
        (TryAuthenticate
          { ClientId := "i", ClientSecret := "s", Username := "u", Password := "p", UserAgent := "",
            AccessToken := "", ExpiresAt := none } 100
          (.ok { AccessToken := "tok", ExpiresIn := -1, Scope := "", TokenType := "" })).1.ExpiresAt = none) ∨
      (0 : Int) < (-1 : Int)) := by decide

/-- Claim C9 as amended: starting from a credential satisfying the invariant that
a non-empty token implies a set expiry, TryAuthenticate either returns the
credential unchanged or, for a successful exchange with a non-empty token and a
non-zero expires-in, sets that token together with the expiry now plus expires-in,
which is set; in both cases the invariant holds afterwards. -/
theorem credential_invariant_preserved (oauth : RedditOauth) (now : Int)
    (response : Except String redditAccessTokenResponseJson)
    (h : oauth.AccessToken ≠ "" → oauth.ExpiresAt ≠ none) :
    ((TryAuthenticate oauth now response).1.AccessToken ≠ "" →
      (TryAuthenticate oauth now response).1.ExpiresAt ≠ none) ∧
    ((TryAuthenticate oauth now response).1 = oauth ∨
      ∃ r, response = .ok r ∧ r.AccessToken ≠ "" ∧ r.ExpiresIn ≠ 0 ∧
        (TryAuthenticate oauth now response).1 =
          { oauth with AccessToken := r.AccessToken, ExpiresAt := some (now + r.ExpiresIn) }) := by
  by_cases hc : (oauth.ClientId != "" && oauth.ClientSecret != "" && oauth.Username != "" && oauth.Password != "") = true
  · cases response with
    | error e => simp [TryAuthenticate, hc]; exact h
    | ok r =>
      by_cases ha : r.AccessToken = ""
      · simp [TryAuthenticate, hc, ha]; exact h
      · by_cases hz : r.ExpiresIn = 0
        · simp [TryAuthenticate, hc, ha, hz]; exact h
        · refine ⟨by simp [TryAuthenticate, hc, ha, hz], Or.inr ⟨r, rfl, ha, hz, ?_⟩⟩
          simp [TryAuthenticate, hc, ha, hz]
  · have hc2 : (oauth.ClientId != "" && oauth.ClientSecret != "" && oauth.Username != "" && oauth.Password != "") = false := by
      revert hc; cases oauth.ClientId != "" && oauth.ClientSecret != "" && oauth.Username != "" && oauth.Password != "" <;> simp
    simp [TryAuthenticate, hc2]; exact h

/-- Witness for C9 amended: after a full-success exchange on a fresh credential
the token is non-empty, so the preserved invariant gives a set expiry. -/
theorem credential_invariant_preserved_witness :
    (TryAuthenticate
      { ClientId := "i", ClientSecret := "s", Username := "u", Password := "p", UserAgent := "",
        AccessToken := "", ExpiresAt := none } 100
      (.ok { AccessToken := "tok", ExpiresIn := 3600, Scope := "", TokenType := "" })).1.ExpiresAt ≠ none :=
  (credential_invariant_preserved
      { ClientId := "i", ClientSecret := "s", Username := "u", Password := "p", UserAgent := "",
        AccessToken := "", ExpiresAt := none } 100
      (.ok { AccessToken := "tok", ExpiresIn := 3600, Scope := "", TokenType := "" })
      (by decide)).1 (by decide)

/-- Claim C3: the produced thumbnail URL is the HTML-unescaped raw thumbnail
exactly when the raw value is non-empty and none of the three sentinel values,
and unset otherwise. -/
theorem thumbnail_rule (subreddit commentsUrlTemplate : String) (showFlairs : Bool)
    (unescape : String → String) (post : RedditPostData) :
    (normalizeRedditPost subreddit commentsUrlTemplate showFlairs unescape post).ThumbnailUrl =
      if post.Thumbnail ≠ "" ∧ post.Thumbnail ≠ "self" ∧ post.Thumbnail ≠ "default" ∧ post.Thumbnail ≠ "nsfw"
      then some (unescape post.Thumbnail) else none := by
  simp only [normalizeRedditPost]
  cases post.ParentList <;> split_ifs <;> rfl

/-- Claim C1: an entry with crosspost parents is marked as a crosspost, its
domain label is the r-slash label of the first parent subreddit, and its target
URL is built from the id, subreddit and permalink of the first parent (through
the comments-URL template when configured, else by prefixing the provider web
domain to the parent permalink); the target never depends on the wrapper link URL
and no parent beyond the first is consulted. -/
theorem crosspost_normalization (subreddit commentsUrlTemplate : String) (showFlairs : Bool)
    (unescape : String → String) (post : RedditPostData) (parent : RedditCrosspostParent)
    (rest : List RedditCrosspostParent) (h : post.ParentList = parent :: rest) :
    ((normalizeRedditPost subreddit commentsUrlTemplate showFlairs unescape post).IsCrosspost = true) ∧
    ((normalizeRedditPost subreddit commentsUrlTemplate showFlairs unescape post).TargetUrlDomain
      = "r/" ++ parent.Subreddit) ∧
    ((normalizeRedditPost subreddit commentsUrlTemplate showFlairs unescape post).TargetUrl =
      some (if commentsUrlTemplate = "" then "https://www.reddit.com" ++ parent.Permalink
            else templateRedditCommentsURL commentsUrlTemplate parent.Subreddit parent.Id parent.Permalink)) ∧
    (∀ u rest2,
      ((normalizeRedditPost subreddit commentsUrlTemplate showFlairs unescape
          { post with Url := u, ParentList := parent :: rest2 }).TargetUrl =
        (normalizeRedditPost subreddit commentsUrlTemplate showFlairs unescape post).TargetUrl) ∧
      ((normalizeRedditPost subreddit commentsUrlTemplate showFlairs unescape
          { post with Url := u, ParentList := parent :: rest2 }).TargetUrlDomain =
        (normalizeRedditPost subreddit commentsUrlTemplate showFlairs unescape post).TargetUrlDomain)) := by
  refine ⟨?_, ?_, ?_, fun u rest2 => ⟨?_, ?_⟩⟩ <;> simp [normalizeRedditPost, h]

/-- Witness for C1 at a concrete crosspost entry with no template configured. -/
theorem crosspost_normalization_witness :
    (normalizeRedditPost "wrap" "" false (fun s => s)
      { Id := "w1", Title := "T", Upvotes := 1, Url := "https://wrapper.example/w", Time := 0,
        CommentsCount := 0, Domain := "wrapper.example", Permalink := "/r/wrap/comments/w1/t/",
        Stickied := false, Pinned := false, IsSelf := false, Thumbnail := "", Flair := "",
        ParentList := [{ Id := "p1", Subreddit := "orig", Permalink := "/r/orig/comments/p1/o/" },
                       { Id := "p2", Subreddit := "other", Permalink := "/r/other/comments/p2/x/" }] }).IsCrosspost
      = true ∧
    (normalizeRedditPost "wrap" "" false (fun s => s)
      { Id := "w1", Title := "T", Upvotes := 1, Url := "https://wrapper.example/w", Time := 0,
        CommentsCount := 0, Domain := "wrapper.example", Permalink := "/r/wrap/comments/w1/t/",
        Stickied := false, Pinned := false, IsSelf := false, Thumbnail := "", Flair := "",
        ParentList := [{ Id := "p1", Subreddit := "orig", Permalink := "/r/orig/comments/p1/o/" },
                       { Id := "p2", Subreddit := "other", Permalink := "/r/other/comments/p2/x/" }] }).TargetUrlDomain
      = "r/orig" :=
  ⟨(crosspost_normalization "wrap" "" false (fun s => s) _
      { Id := "p1", Subreddit := "orig", Permalink := "/r/orig/comments/p1/o/" }
      [{ Id := "p2", Subreddit := "other", Permalink := "/r/other/comments/p2/x/" }] rfl).1,
   (crosspost_normalization "wrap" "" false (fun s => s) _
      { Id := "p1", Subreddit := "orig", Permalink := "/r/orig/comments/p1/o/" }
      [{ Id := "p2", Subreddit := "other", Permalink := "/r/other/comments/p2/x/" }] rfl).2.1⟩

/-- Claim C2: the produced target URL is unset exactly when the entry is a self
post with no crosspost parents; for a non-self entry that is not a crosspost the
target URL is the entry link URL. -/
theorem targetUrl_unset_iff (subreddit commentsUrlTemplate : String) (showFlairs : Bool)
    (unescape : String → String) (post : RedditPostData) :
    ((normalizeRedditPost subreddit commentsUrlTemplate showFlairs unescape post).TargetUrl = none ↔
      (post.IsSelf = true ∧ post.ParentList = [])) ∧
    (post.IsSelf = false → post.ParentList = [] →
      (normalizeRedditPost subreddit commentsUrlTemplate showFlairs unescape post).TargetUrl
        = some post.Url) := by
  simp only [normalizeRedditPost]
  cases hpl : post.ParentList <;> cases hself : post.IsSelf <;> split_ifs <;> simp_all

/-- Witness for C2: the spec scenario of a single non-self entry with link URL
http colon slash slash x yields that target URL. -/
theorem targetUrl_unset_iff_witness :
    (normalizeRedditPost "test" "" false (fun s => s)
      { Id := "a", Title := "T", Upvotes := 0, Url := "http://x", Time := 0,
        CommentsCount := 0, Domain := "x", Permalink := "/r/test/comments/a/t/",
        Stickied := false, Pinned := false, IsSelf := false, Thumbnail := "default",
        Flair := "", ParentList := [] }).TargetUrl = some "http://x" :=
  (targetUrl_unset_iff "test" "" false (fun s => s)
      { Id := "a", Title := "T", Upvotes := 0, Url := "http://x", Time := 0,
        CommentsCount := 0, Domain := "x", Permalink := "/r/test/comments/a/t/",
        Stickied := false, Pinned := false, IsSelf := false, Thumbnail := "default",
        Flair := "", ParentList := [] }).2 rfl rfl

/-- Claim C4: whenever the fetch succeeds, the produced sequence is exactly the
normalisation of the non-stickied, non-pinned entries in their original listing
order, so no stickied or pinned entry produces a post. -/
theorem fetch_filters_preserves_order
    (subreddit sort topPeriod search commentsUrlTemplate requestUrlTemplate : String)
    (showFlairs : Bool) (oauth : Option RedditOauth) (now : Int)
    (tokenResponse : Except String redditAccessTokenResponseJson)
    (children : List RedditPostData) (unescape : String → String) (posts : ForumPosts)
    (h : FetchSubredditPosts subreddit sort topPeriod search commentsUrlTemplate requestUrlTemplate
      showFlairs oauth now tokenResponse (.ok ⟨children⟩) unescape = .ok posts) :
    posts = (children.filter (fun p => !(p.Stickied || p.Pinned))).map
      (normalizeRedditPost subreddit commentsUrlTemplate showFlairs unescape) := by
  cases hae : redditFetchAuthError oauth now tokenResponse with
  | some e =>
    have h2 : (Except.error (RedditFetchError.auth e) : Except RedditFetchError ForumPosts) = .ok posts := by
      rw [FetchSubredditPosts.eq_def, hae] at h
      exact h
    exact Except.noConfusion h2
  | none =>
    have h2 : (if children.length = 0 then
          (Except.error RedditFetchError.noPostsFound : Except RedditFetchError ForumPosts)
        else .ok ((children.filter (fun p => !(p.Stickied || p.Pinned))).map
          (normalizeRedditPost subreddit commentsUrlTemplate showFlairs unescape))) = .ok posts := by
      rw [FetchSubredditPosts.eq_def, hae] at h
      exact h
    split at h2
    · exact Except.noConfusion h2
    · exact (Except.ok.inj h2).symm

/-- Witness for C4: a three-entry listing with a stickied first entry and a
pinned last entry produces exactly the normalisation of the middle entry. -/
theorem fetch_filters_preserves_order_witness :
    [normalizeRedditPost "test" "" false (fun s => s)
      { Id := "b", Title := "B", Upvotes := 0, Url := "http://b", Time := 0,
        CommentsCount := 0, Domain := "b", Permalink := "/r/test/comments/b/t/",
        Stickied := false, Pinned := false, IsSelf := false, Thumbnail := "",
        Flair := "", ParentList := [] }] =
    ([{ Id := "a", Title := "A", Upvotes := 0, Url := "http://a", Time := 0,
        CommentsCount := 0, Domain := "a", Permalink := "/r/test/comments/a/t/",
        Stickied := true, Pinned := false, IsSelf := false, Thumbnail := "",
        Flair := "", ParentList := [] },
      { Id := "b", Title := "B", Upvotes := 0, Url := "http://b", Time := 0,
        CommentsCount := 0, Domain := "b", Permalink := "/r/test/comments/b/t/",
        Stickied := false, Pinned := false, IsSelf := false, Thumbnail := "",
        Flair := "", ParentList := [] },
      { Id := "c", Title := "C", Upvotes := 0, Url := "http://c", Time := 0,
        CommentsCount := 0, Domain := "c", Permalink := "/r/test/comments/c/t/",
        Stickied := false, Pinned := true, IsSelf := false, Thumbnail := "",
        Flair := "", ParentList := [] }].filter (fun p => !(p.Stickied || p.Pinned))).map
      (normalizeRedditPost "test" "" false (fun s => s)) :=
  fetch_filters_preserves_order "test" "hot" "" "" "" "" false none 0 (.error "unused") _
    (fun s => s) _ rfl

/-- Claim C6: when the auth step reports no failure and the listing decodes to
zero entries, the fetch fails with the dedicated empty-result error, which is a
different error from every transport and every auth failure, and no posts are
returned. -/
theorem fetch_empty_listing_noPostsFound
    (subreddit sort topPeriod search commentsUrlTemplate requestUrlTemplate : String)
    (showFlairs : Bool) (oauth : Option RedditOauth) (now : Int)
    (tokenResponse : Except String redditAccessTokenResponseJson)
    (unescape : String → String)
    (h : redditFetchAuthError oauth now tokenResponse = none) :
    FetchSubredditPosts subreddit sort topPeriod search commentsUrlTemplate requestUrlTemplate
      showFlairs oauth now tokenResponse (.ok ⟨[]⟩) unescape = .error .noPostsFound ∧
    (∀ m, (RedditFetchError.noPostsFound : RedditFetchError) ≠ .transport m) ∧
    (∀ e, (RedditFetchError.noPostsFound : RedditFetchError) ≠ .auth e) := by
  refine ⟨?_, fun m => by simp, fun e => by simp⟩
  rw [FetchSubredditPosts.eq_def, h]
  rfl

/-- Witness for C6: an unauthenticated fetch of an empty listing fails with the
empty-result error. -/
theorem fetch_empty_listing_noPostsFound_witness :
    FetchSubredditPosts "test" "hot" "" "" "" "" false none 0 (.error "unused") (.ok ⟨[]⟩)
      (fun s => s) = .error .noPostsFound :=
  (fetch_empty_listing_noPostsFound "test" "hot" "" "" "" "" false none 0 (.error "unused")
    (fun s => s) rfl).1

/-- Claim C7: with a search term, the endpoint is the search listing, the q
parameter is the search term, a space, the word subreddit, a colon and the
subreddit name, and the sort parameter is the configured sort; without one, the
endpoint is the subreddit listing path for the sort; whenever sort is top a t
parameter holding the period is present; and a configured request-URL template
has its request-URL placeholder replaced by the constructed URL. -/
theorem request_url_construction
    (baseRequestUrl subreddit sort topPeriod search requestUrlTemplate : String) :
    (search ≠ "" →
      urlValuesGet (buildRedditQuery subreddit sort topPeriod search) "q"
        = some [search ++ " subreddit:" ++ subreddit] ∧
      urlValuesGet (buildRedditQuery subreddit sort topPeriod search) "sort" = some [sort]) ∧
    (urlValuesGet (buildRedditQuery subreddit sort topPeriod search) "t" =
      if sort = "top" then some [topPeriod] else none) ∧
    (buildRedditRequestUrl baseRequestUrl subreddit sort topPeriod search requestUrlTemplate =
      (if requestUrlTemplate ≠ ""
       then replaceAll requestUrlTemplate "{REQUEST-URL}"
         (if search ≠ ""
          then baseRequestUrl ++ "/search.json?"
            ++ urlValuesEncode (buildRedditQuery subreddit sort topPeriod search)
          else baseRequestUrl ++ "/r/" ++ subreddit ++ "/" ++ sort ++ ".json?"
            ++ urlValuesEncode (buildRedditQuery subreddit sort topPeriod search))
       else (if search ≠ ""
          then baseRequestUrl ++ "/search.json?"
            ++ urlValuesEncode (buildRedditQuery subreddit sort topPeriod search)
          else baseRequestUrl ++ "/r/" ++ subreddit ++ "/" ++ sort ++ ".json?"
            ++ urlValuesEncode (buildRedditQuery subreddit sort topPeriod search)))) := by
  by_cases hs : search = "" <;> by_cases ht : sort = "top" <;>
    simp [buildRedditQuery, buildRedditRequestUrl, urlValuesSet, urlValuesGet, hs, ht]

/-- Witness for C7 at the spec scenario: searching rust in programming with sort
top and period week yields the expected q, sort and t parameters. -/
theorem request_url_construction_witness :
    urlValuesGet (buildRedditQuery "programming" "top" "week" "rust") "q"
      = some ["rust subreddit:programming"] ∧
    urlValuesGet (buildRedditQuery "programming" "top" "week" "rust") "sort" = some ["top"] ∧
    urlValuesGet (buildRedditQuery "programming" "top" "week" "rust") "t" = some ["week"] :=
  ⟨((request_url_construction "https://reddit.com" "programming" "top" "week" "rust" "").1
      (by decide)).1,
   ((request_url_construction "https://reddit.com" "programming" "top" "week" "rust" "").1
      (by decide)).2,
   by
    have h := (request_url_construction "https://reddit.com" "programming" "top" "week" "rust" "").2.1
    simpa using h⟩
